import Mathlib

/-!
Verification development for the logistics backend core: trip lifecycle,
vehicle locking, route-connectivity admission control, pricing resolution and
the billing/settlement engine. Each definition is a shallow embedding of a
function or data model from the Python sources under backend/app; the file
references the source location it was translated from.

Conventions of the embedding:
- SQLAlchemy Float columns become Rat, DateTime columns become Int
  (seconds since the epoch), Integer primary/foreign keys become Nat.
- The database is a record of row lists plus a fresh-id counter; a request
  handler is a function from the database to `Except ApiError DB`, where an
  error means the HTTP handler raised before `db.commit()`, so the
  transaction rolls back and the committed state is the input state.
- `scalar_one_or_none` is modelled faithfully, including its
  MultipleResultsFound failure when more than one row matches.
- The great-circle distance function `haversine_distance`
  (services/ml_features.py) uses transcendental functions; it is passed as
  an explicit parameter `hav` to the definitions that call it, mirroring the
  design view of GeoMetric as an external pure function.
-/

namespace Logistics

/-- Trip status enumeration (models/trip_enums.py, class TripStatus). -/
inductive TripStatus where
  | PLANNED
  | PENDING
  | IN_PROGRESS
  | COMPLETED
  | CANCELLED
deriving DecidableEq, Repr

/-- The .value of the string enum, used in error details. -/
def TripStatus.value : TripStatus → String
  | .PLANNED => "PLANNED"
  | .PENDING => "PENDING"
  | .IN_PROGRESS => "IN_PROGRESS"
  | .COMPLETED => "COMPLETED"
  | .CANCELLED => "CANCELLED"

/-- Trip stop status enumeration (models/trip_enums.py, class TripStopStatus). -/
inductive TripStopStatus where
  | PENDING
  | COMPLETED
  | SKIPPED
deriving DecidableEq, Repr

/-- Trip stop type enumeration (models/trip_enums.py, class TripStopType). -/
inductive TripStopType where
  | PICKUP
  | DELIVERY
deriving DecidableEq, Repr

/-- Settlement status enumeration (models/billing_enums.py). -/
inductive SettlementStatus where
  | PENDING
  | APPROVED
  | PAID
deriving DecidableEq, Repr

/-- Ledger entry type enumeration (models/billing_enums.py). -/
inductive LedgerEntryType where
  | DEBIT
  | CREDIT
deriving DecidableEq, Repr

/-- User role enumeration (models/enums.py, class UserRole). -/
inductive UserRole where
  | ADMIN
  | HUB_OWNER
  | FLEET_OWNER
  | DRIVER
deriving DecidableEq, Repr

/-- Row of the trips table (models/trip.py, class Trip). Only the columns
read or written by the embedded code are carried; `updated_at` is never
read by any of it. -/
structure Trip where
  id : Nat
  fleetOwnerId : Nat
  routeId : Nat
  vehicleId : Option Nat
  driverId : Option Nat
  status : TripStatus
  createdAt : Int
  startedAt : Option Int
  completedAt : Option Int
deriving DecidableEq, Repr

/-- Row of the trip_stops table (models/trip_stop.py, class TripStop).
The location columns are never read by the embedded code paths. -/
structure TripStop where
  id : Nat
  tripId : Nat
  parcelId : Nat
  stopType : TripStopType
  sequenceNumber : Int
  status : TripStopStatus
  completedAt : Option Int
deriving DecidableEq, Repr

/-- Row of the vehicle_locks table (models/vehicle_lock.py, class VehicleLock). -/
structure VehicleLock where
  id : Nat
  vehicleId : Nat
  tripId : Nat
  lockedByDriverId : Nat
  lockedAt : Int
  releasedAt : Option Int
deriving DecidableEq, Repr

/-- Row of the fleet_routes table (models/fleet_route.py): the columns read
by connectivity checking and billing. -/
structure FleetRoute where
  id : Nat
  originLat : Rat
  originLng : Rat
  destinationLat : Rat
  destinationLng : Rat
deriving DecidableEq, Repr

/-- Row of the parcels table (models/parcel.py): the columns read by the
embedded code. The model defines weight_kg; it defines no attribute named
weight. -/
structure Parcel where
  id : Nat
  hubOwnerId : Nat
  weightKg : Rat
deriving DecidableEq, Repr

/-- Row of the pricing_rules table (models/pricing_rule.py, class PricingRule). -/
structure PricingRule where
  id : Nat
  ruleName : String
  baseRatePerKm : Rat
  weightSurchargePerKg : Rat
  effectiveFrom : Int
  effectiveUntil : Option Int
  isActive : Bool
deriving DecidableEq, Repr

/-- Row of the trip_charges table (models/trip_charge.py, class TripCharge). -/
structure TripCharge where
  id : Nat
  tripId : Nat
  hubOwnerId : Nat
  fleetOwnerId : Nat
  pricingRuleId : Nat
  distanceKm : Rat
  weightKg : Rat
  baseCharge : Rat
  surcharge : Rat
  totalCharge : Rat
  settlementId : Option Nat
deriving DecidableEq, Repr

/-- Row of the settlements table (models/settlement.py, class Settlement). -/
structure Settlement where
  id : Nat
  hubOwnerId : Nat
  fleetOwnerId : Nat
  totalAmount : Rat
  status : SettlementStatus
deriving DecidableEq, Repr

/-- Row of the ledger_entries table (models/ledger_entry.py, class LedgerEntry). -/
structure LedgerEntry where
  id : Nat
  settlementId : Nat
  entryType : LedgerEntryType
  accountOwnerId : Nat
  amount : Rat
  description : String
deriving DecidableEq, Repr

/-- Row of the users table (models/user.py): the columns read by the
driver-assignment guards. -/
structure User where
  id : Nat
  role : UserRole
  isActive : Bool
  fleetOwnerId : Option Nat
deriving DecidableEq, Repr

/-- The persistent state the embedded handlers read and write, plus a
counter standing for the autoincrement id sequences (every id of an existing
row is below it in well-formed states). -/
structure DB where
  users : List User
  routes : List FleetRoute
  parcels : List Parcel
  trips : List Trip
  stops : List TripStop
  locks : List VehicleLock
  rules : List PricingRule
  charges : List TripCharge
  settlements : List Settlement
  ledger : List LedgerEntry
  nextId : Nat
deriving DecidableEq, Repr

/-- The empty database. -/
def DB.empty : DB :=
  { users := [], routes := [], parcels := [], trips := [], stops := [],
    locks := [], rules := [], charges := [], settlements := [], ledger := [],
    nextId := 1 }

/-- HTTPException statuses raised by the embedded handlers, carrying the
detail string. An error result models the handler raising before commit:
the transaction rolls back and no state change is persisted. -/
inductive ApiError where
  | notFound (detail : String)
  | badRequest (detail : String)
  | forbidden (detail : String)
  | conflict (detail : String)
  | internalError (detail : String)
deriving DecidableEq, Repr

/-- Python exceptions raised inside the billing domain code, as caught by
the completion handler: ValueError is turned into a 409, anything else
(here, AttributeError) into a 500. -/
inductive PyError where
  | valueError (msg : String)
  | attributeError (msg : String)
deriving DecidableEq, Repr

/-- Result.scalar_one_or_none over the rows matching a predicate: none when
no row matches, the row when exactly one matches, and MultipleResultsFound
when several do. -/
def scalarOneOrNone (p : α → Bool) (xs : List α) : Except String (Option α) :=
  match xs.filter p with
  | [] => Except.ok none
  | [x] => Except.ok (some x)
  | _ => Except.error ("Multiple rows were found when exactly one or none was required")

/-- Maximum of a list of integers, 0 when the list is empty. This matches
the Python idiom `scalar_one_or_none() or 0` applied to a
SELECT ... ORDER BY x DESC LIMIT 1: an absent row gives 0, a present row
gives the maximum (with the maximum 0 itself also giving 0). -/
def maxOr0 : List Int → Int
  | [] => 0
  | x :: xs => xs.foldl max x

/-- Number of days of a timedelta of the given number of seconds
(timedelta.days floors towards negative infinity). -/
def timedeltaDays (seconds : Int) : Int :=
  Int.fdiv seconds 86400

/-! ## Vehicle locking service (services/vehicle_locking.py) -/

/-- The WHERE clause vehicle_id = v AND released_at IS NULL. -/
def liveForVehicle (vehicleId : Nat) (l : VehicleLock) : Bool :=
  decide (l.vehicleId = vehicleId) && l.releasedAt.isNone

/-- The WHERE clause vehicle_id = v AND trip_id = t AND released_at IS NULL. -/
def livePair (vehicleId tripId : Nat) (l : VehicleLock) : Bool :=
  decide (l.vehicleId = vehicleId) && decide (l.tripId = tripId)
    && l.releasedAt.isNone

/-- The live (unreleased) locks held on a vehicle. -/
def liveLocksFor (db : DB) (vehicleId : Nat) : List VehicleLock :=
  db.locks.filter (liveForVehicle vehicleId)

/-- The live (unreleased) locks held on a vehicle by a given trip. -/
def livePairLocks (db : DB) (vehicleId tripId : Nat) : List VehicleLock :=
  db.locks.filter (livePair vehicleId tripId)

/-- The lock row create_vehicle_lock inserts (released_at null, id fresh). -/
def newLock (db : DB) (vehicleId tripId driverId : Nat) (now : Int) : VehicleLock :=
  { id := db.nextId, vehicleId := vehicleId, tripId := tripId,
    lockedByDriverId := driverId, lockedAt := now, releasedAt := none }

/-- The database after inserting a fresh live lock. -/
def addLiveLock (db : DB) (vehicleId tripId driverId : Nat) (now : Int) : DB :=
  { db with
    locks := db.locks ++ [newLock db vehicleId tripId driverId now],
    nextId := db.nextId + 1 }

/-- create_vehicle_lock (services/vehicle_locking.py lines 17 to 49): insert a
lock row with released_at null and flush. The flush enforces the partial
unique index ix_vehicle_locks_active of models/vehicle_lock.py (unique on
vehicle_id over the rows where released_at is null): when the vehicle already
has a live lock the insert raises IntegrityError. -/
def create_vehicle_lock (db : DB) (vehicleId tripId driverId : Nat) (now : Int) :
    Except String (DB × VehicleLock) :=
  if db.locks.any (liveForVehicle vehicleId) then
    Except.error ("IntegrityError: duplicate key value violates unique constraint ix_vehicle_locks_active")
  else
    Except.ok (addLiveLock db vehicleId tripId driverId now,
      newLock db vehicleId tripId driverId now)

/-- is_vehicle_locked (services/vehicle_locking.py lines 52 to 74). -/
def is_vehicle_locked (db : DB) (vehicleId : Nat) :
    Except String (Bool × Option VehicleLock) := do
  let lock ← scalarOneOrNone (liveForVehicle vehicleId) db.locks
  Except.ok (lock.isSome, lock)

/-- release_vehicle_lock (services/vehicle_locking.py lines 77 to 108): find
the unreleased lock for this (vehicle, trip) pair; when none exists return
false without error, otherwise stamp released_at and return true. -/
def release_vehicle_lock (db : DB) (vehicleId tripId : Nat) (now : Int) :
    Except String (DB × Bool) := do
  let lock ← scalarOneOrNone (livePair vehicleId tripId) db.locks
  match lock with
  | none => Except.ok (db, false)
  | some l =>
    Except.ok ({ db with locks := db.locks.map (fun x =>
      if x.id = l.id then { x with releasedAt := some now } else x) }, true)

/-- count_driver_in_progress_trips (services/vehicle_locking.py lines 111
to 135). -/
def count_driver_in_progress_trips (db : DB) (driverId : Nat) : Nat :=
  (db.trips.filter (fun t => decide (t.driverId = some driverId)
    && decide (t.status = TripStatus.IN_PROGRESS))).length

/-! ## Pricing resolver (domain/billing/pricing_resolver.py) -/

/-- The filter of PricingResolver.resolve_active_rule: is_active is true,
effective_from is at most now, and effective_until is null or at least now. -/
def ruleValidAt (now : Int) (r : PricingRule) : Bool :=
  r.isActive && decide (r.effectiveFrom ≤ now) &&
    (match r.effectiveUntil with
     | none => true
     | some u => decide (u ≥ now))

/-- ORDER BY effective_from DESC LIMIT 1: the first rule with maximal
effective_from (ties are resolved by the row order, which the query leaves
unspecified; this picks the earliest listed maximal row). -/
def latestEffectiveFrom : List PricingRule → Option PricingRule
  | [] => none
  | r :: rs =>
    match latestEffectiveFrom rs with
    | none => some r
    | some best => if best.effectiveFrom > r.effectiveFrom then some best else some r

/-- PricingResolver.resolve_active_rule (domain/billing/pricing_resolver.py
lines 19 to 43): select the active rule whose validity window contains now,
ordered by effective_from descending, limit 1; raise ValueError when no rule
qualifies. -/
def resolve_active_rule (rules : List PricingRule) (now : Int) :
    Except PyError PricingRule :=
  match latestEffectiveFrom (rules.filter (ruleValidAt now)) with
  | some r => Except.ok r
  | none => Except.error (PyError.valueError
      ("No active pricing rule found. Cannot process billing."))

/-! ## Route connectivity service (services/route_connectivity.py) -/

/-- CONNECTIVITY_DISTANCE_THRESHOLD_KM (route_connectivity.py line 16). -/
def CONNECTIVITY_DISTANCE_THRESHOLD_KM : Rat := 50

/-- CONNECTIVITY_DATE_THRESHOLD_DAYS (route_connectivity.py line 17). -/
def CONNECTIVITY_DATE_THRESHOLD_DAYS : Nat := 2

/-- validate_route_connectivity (route_connectivity.py lines 20 to 73):
fetch both routes (false when either is missing); connected when the route
ids coincide, or when the existing destination is within 50 km of the new
origin and the creation instants are within 2 days of each other. `hav` is
haversine_distance from services/ml_features.py. -/
def validate_route_connectivity (hav : Rat → Rat → Rat → Rat → Rat) (db : DB)
    (existing_trip new_trip : Trip) : Except String Bool :=
  match scalarOneOrNone (fun r => decide (r.id = existing_trip.routeId))
      db.routes with
  | Except.error m => Except.error m
  | Except.ok existing_route =>
    match scalarOneOrNone (fun r => decide (r.id = new_trip.routeId))
        db.routes with
    | Except.error m => Except.error m
    | Except.ok new_route =>
      match existing_route, new_route with
      | some er, some nr =>
        if er.id = nr.id then
          Except.ok true
        else
          if hav er.destinationLat er.destinationLng nr.originLat nr.originLng
              ≤ CONNECTIVITY_DISTANCE_THRESHOLD_KM then
            if (timedeltaDays (new_trip.createdAt - existing_trip.createdAt)).natAbs
                ≤ CONNECTIVITY_DATE_THRESHOLD_DAYS then
              Except.ok true
            else
              Except.ok false
          else
            Except.ok false
      | _, _ => Except.ok false

/-- The trips held by a driver with status PLANNED, as fetched by
can_assign_driver_to_trip (route_connectivity.py lines 95 to 101). -/
def heldPlannedTrips (db : DB) (driverId : Nat) : List Trip :=
  db.trips.filter (fun t => decide (t.driverId = some driverId)
    && decide (t.status = TripStatus.PLANNED))

/-- The loop of can_assign_driver_to_trip (route_connectivity.py lines 107
to 113): the first held trip that is not connected vetoes with a reason
naming it. -/
def connectivityLoop (hav : Rat → Rat → Rat → Rat → Rat) (db : DB)
    (new_trip : Trip) : List Trip → Except String (Bool × String)
  | [] => Except.ok (true, "All routes connected")
  | t :: ts =>
    match validate_route_connectivity hav db t new_trip with
    | Except.error m => Except.error m
    | Except.ok is_connected =>
      if is_connected then
        connectivityLoop hav db new_trip ts
      else
        Except.ok (false,
          "Route not connected to existing trip " ++ toString t.id)

/-- can_assign_driver_to_trip (route_connectivity.py lines 76 to 113). -/
def can_assign_driver_to_trip (hav : Rat → Rat → Rat → Rat → Rat) (db : DB)
    (driverId : Nat) (new_trip : Trip) : Except String (Bool × String) :=
  let existing_trips := heldPlannedTrips db driverId
  if existing_trips.isEmpty then
    Except.ok (true, "No conflicts")
  else
    connectivityLoop hav db new_trip existing_trips

/-! ## Billing service (domain/billing/billing_service.py)

The mapped classes declare columns only: no model module in the repository
declares a SQLAlchemy relationship, so the Trip class has no attribute
trip_stops and no attribute route, and the Parcel class has no attribute
weight (its column is weight_kg). Python attribute access on the mapped
class or instance therefore raises AttributeError for those names. The
embedding makes those accesses explicit so that the control flow of
BillingService.process_trip is exactly the source's. -/

/-- The attribute names the Trip mapped class defines (models/trip.py:
columns only, no relationships anywhere in the models package). -/
def tripClassAttributes : List String :=
  ["id", "fleet_owner_id", "route_id", "vehicle_id", "driver_id", "status",
   "created_at", "updated_at", "started_at", "completed_at"]

/-- Python attribute lookup on the Trip mapped class, as performed by
joinedload(Trip.trip_stops) and joinedload(Trip.route). -/
def getattrTripClass (name : String) : Except PyError Unit :=
  if name ∈ tripClassAttributes then
    Except.ok ()
  else
    Except.error (PyError.attributeError
      ("type object Trip has no attribute " ++ name))

/-- The attribute names a Parcel instance defines (models/parcel.py columns). -/
def parcelAttributes : List String :=
  ["id", "hub_id", "hub_owner_id", "reference_code", "description",
   "weight_kg", "length_cm", "width_cm", "height_cm", "quantity",
   "delivery_due_date", "status", "is_active", "created_at", "updated_at"]

/-- Python attribute lookup parcel.weight (billing_service.py line 120): the
Parcel model defines weight_kg, not weight, so this access raises
AttributeError. -/
def getattrParcelWeight (p : Parcel) : Except PyError Rat :=
  if ("weight") ∈ parcelAttributes then
    Except.ok p.weightKg
  else
    Except.error (PyError.attributeError ("Parcel object has no attribute weight"))

/-- The loop of billing_service.py lines 85 to 89: the first stop of the
trip whose parcel relationship resolves. -/
def firstStopParcel (db : DB) : List TripStop → Option Parcel
  | [] => none
  | s :: ss =>
    match db.parcels.find? (fun p => decide (p.id = s.parcelId)) with
    | some p => some p
    | none => firstStopParcel db ss

/-- BillingService.process_trip (domain/billing/billing_service.py lines 27
to 216). The very first statement builds
select(Trip).options(joinedload(Trip.trip_stops).joinedload("parcel"),
joinedload(Trip.route)), whose argument evaluation accesses Trip.trip_stops
on the mapped class; since the class declares no such attribute, every call
raises AttributeError there, before the trip is even fetched. The remainder
of the translation below follows the source line by line and is reachable
only if those attribute lookups were to succeed. -/
def process_trip (hav : Rat → Rat → Rat → Rat → Rat) (now : Int) (db : DB)
    (tripId : Nat) : Except PyError (DB × TripCharge) := do
  -- stmt = select(Trip).options(joinedload(Trip.trip_stops)..., joinedload(Trip.route))
  let _ ← getattrTripClass ("trip_stops")
  let _ ← getattrTripClass ("route")
  -- trip = result.unique().scalar_one_or_none()
  let trip? ← (scalarOneOrNone (fun t => decide (t.id = tripId)) db.trips).mapError
    PyError.valueError
  match trip? with
  | none => Except.error (PyError.valueError
      ("Trip " ++ toString tripId ++ " not found"))
  | some trip =>
  if trip.status ≠ TripStatus.COMPLETED then
    Except.error (PyError.valueError ("Trip " ++ toString tripId ++
      " is not COMPLETED. Current status: " ++ trip.status.value))
  else do
  -- 2. Idempotency check: an existing TripCharge for this trip is returned unchanged
  let existing_charge ← (scalarOneOrNone (fun c => decide (c.tripId = tripId))
    db.charges).mapError PyError.valueError
  match existing_charge with
  | some c => Except.ok (db, c)
  | none => do
  -- find hub owner via the first stop whose parcel resolves
  let tripStops := db.stops.filter (fun s => decide (s.tripId = trip.id))
  match firstStopParcel db tripStops with
  | none => Except.error (PyError.valueError
      ("No parcel found associated with Trip " ++ toString tripId))
  | some parcel => do
  let hub_owner_id := parcel.hubOwnerId
  let fleet_owner_id := trip.fleetOwnerId
  -- route = await db.get(FleetRoute, trip.route_id)
  match db.routes.find? (fun r => decide (r.id = trip.routeId)) with
  | none => Except.error (PyError.valueError ("Trip route not found"))
  | some route => do
  let distance_km := hav route.originLat route.originLng
    route.destinationLat route.destinationLng
  -- weight_kg = parcel.weight  (the Parcel model has weight_kg, not weight)
  let weight_kg ← getattrParcelWeight parcel
  -- 3. Resolve pricing rule
  let pricing_rule ← resolve_active_rule db.rules now
  -- 4. Calculate charges
  let base_charge := distance_km * pricing_rule.baseRatePerKm
  let surcharge := weight_kg * pricing_rule.weightSurchargePerKg
  let total_amount := base_charge + surcharge
  -- 5. Create TripCharge, 6. Settlement, then link the charge to it
  let settlementId := db.nextId + 1
  let trip_charge : TripCharge :=
    { id := db.nextId, tripId := trip.id, hubOwnerId := hub_owner_id,
      fleetOwnerId := fleet_owner_id, pricingRuleId := pricing_rule.id,
      distanceKm := distance_km, weightKg := weight_kg,
      baseCharge := base_charge, surcharge := surcharge,
      totalCharge := total_amount, settlementId := some settlementId }
  let settlement : Settlement :=
    { id := settlementId, hubOwnerId := hub_owner_id,
      fleetOwnerId := fleet_owner_id, totalAmount := total_amount,
      status := SettlementStatus.PENDING }
  -- 7. Ledger entries (double entry): hub owner DEBIT, fleet owner CREDIT
  let ledger_debit : LedgerEntry :=
    { id := db.nextId + 2, settlementId := settlementId,
      entryType := LedgerEntryType.DEBIT, accountOwnerId := hub_owner_id,
      amount := total_amount,
      description := "Trip Charge: " ++ toString tripId ++
        " (Settlement " ++ toString settlementId ++ ")" }
  let ledger_credit : LedgerEntry :=
    { id := db.nextId + 3, settlementId := settlementId,
      entryType := LedgerEntryType.CREDIT, accountOwnerId := fleet_owner_id,
      amount := total_amount,
      description := "Trip Earnings: " ++ toString tripId ++
        " (Settlement " ++ toString settlementId ++ ")" }
  Except.ok ({ db with
    charges := db.charges ++ [trip_charge],
    settlements := db.settlements ++ [settlement],
    ledger := db.ledger ++ [ledger_debit, ledger_credit],
    nextId := db.nextId + 4 }, trip_charge)

/-! ## Request handlers

Each handler returns the database as committed by its `db.commit()` on
success; an `ApiError` means an HTTPException was raised first, so the open
transaction was never committed and the persisted state stays the input
state. Response payloads and the fire-and-forget audit rows (written after
the commit) are not claim-relevant and are not modelled. Role gating
(require_role) is modelled by the handler taking the already-authenticated
caller id of the role the endpoint admits. -/

/-- The highest sequence number among the completed stops of a trip, 0 when
none is completed (trip_execution.py lines 258 to 264). -/
def maxCompletedSeq (db : DB) (tripId : Nat) : Int :=
  maxOr0 ((db.stops.filter (fun s => decide (s.tripId = tripId)
    && decide (s.status = TripStopStatus.COMPLETED))).map (fun s => s.sequenceNumber))

/-- The stops of a trip that are not COMPLETED (trip_execution.py lines 350
to 356). -/
def pendingStops (db : DB) (tripId : Nat) : List TripStop :=
  db.stops.filter (fun s => decide (s.tripId = tripId)
    && decide (s.status ≠ TripStopStatus.COMPLETED))

/-- The write of start_trip: the trip row moves to IN_PROGRESS with
started_at stamped (trip_execution.py lines 106 to 108). -/
def markTripStarted (db : DB) (tripId : Nat) (now : Int) : DB :=
  { db with trips := db.trips.map (fun t =>
      if t.id = tripId then
        { t with status := TripStatus.IN_PROGRESS, startedAt := some now }
      else t) }

/-- The write of complete_stop: the stop row moves to COMPLETED with
completed_at stamped (trip_execution.py lines 274 to 276). -/
def markStopCompleted (db : DB) (tripId stopId : Nat) (now : Int) : DB :=
  { db with stops := db.stops.map (fun s =>
      if decide (s.id = stopId) && decide (s.tripId = tripId) then
        { s with status := TripStopStatus.COMPLETED, completedAt := some now }
      else s) }

/-- The trip write of complete_trip: the trip row moves to COMPLETED with
completed_at stamped (trip_execution.py lines 380 to 382). -/
def markTripCompleted (db : DB) (tripId : Nat) (now : Int) : DB :=
  { db with trips := db.trips.map (fun t =>
      if t.id = tripId then
        { t with status := TripStatus.COMPLETED, completedAt := some now }
      else t) }

/-- The write of assign_driver_to_trip: driver_id set and status moved to
PENDING together (driver_assignment.py lines 112 to 114). -/
def setTripDriver (db : DB) (tripId driverId : Nat) : DB :=
  { db with trips := db.trips.map (fun t =>
      if t.id = tripId then
        { t with driverId := some driverId, status := TripStatus.PENDING }
      else t) }

/-- The write of unassign_driver_from_trip: driver_id cleared and status
moved back to PLANNED together (driver_assignment.py lines 184 to 186). -/
def clearTripDriver (db : DB) (tripId : Nat) : DB :=
  { db with trips := db.trips.map (fun t =>
      if t.id = tripId then
        { t with driverId := none, status := TripStatus.PLANNED }
      else t) }

/-- start_trip (api/v1/endpoints/trip_execution.py lines 32 to 131): guards
are trip found, trip PENDING, trip assigned to the calling driver, the
driver has no other IN_PROGRESS trip; then the vehicle (when assigned) is
locked, an IntegrityError from the partial unique index surfacing as a 409
Conflict; finally the trip moves to IN_PROGRESS with started_at stamped. -/
def start_trip (db : DB) (driverId tripId : Nat) (now : Int) :
    Except ApiError DB :=
  match scalarOneOrNone (fun t => decide (t.id = tripId)) db.trips with
  | Except.error m => Except.error (ApiError.internalError m)
  | Except.ok none => Except.error (ApiError.notFound ("Trip not found"))
  | Except.ok (some trip) =>
    if trip.status ≠ TripStatus.PENDING then
      Except.error (ApiError.badRequest
        ("Can only start PENDING trip, current status: " ++ trip.status.value))
    else if trip.driverId ≠ some driverId then
      Except.error (ApiError.forbidden ("This trip is not assigned to you"))
    else if count_driver_in_progress_trips db driverId > 0 then
      Except.error (ApiError.conflict
        ("You already have an IN_PROGRESS trip. Complete it before starting another."))
    else
      match trip.vehicleId with
      | some vehicleId =>
        match create_vehicle_lock db vehicleId trip.id driverId now with
        | Except.error _ => Except.error (ApiError.conflict
            ("Vehicle " ++ toString vehicleId ++ " is already locked by another trip"))
        | Except.ok (dbLocked, _) => Except.ok (markTripStarted dbLocked tripId now)
      | none => Except.ok (markTripStarted db tripId now)

/-- complete_stop (api/v1/endpoints/trip_execution.py lines 198 to 300):
guards are trip found and IN_PROGRESS and owned by the caller, stop found
for this trip, stop not already COMPLETED, and the stop's sequence number
equal to one more than the highest completed sequence number of the trip
(0 when none is completed). The out-of-order rejection reports the expected
next sequence number. -/
def complete_stop (db : DB) (driverId tripId stopId : Nat) (now : Int) :
    Except ApiError DB :=
  match scalarOneOrNone (fun t => decide (t.id = tripId)) db.trips with
  | Except.error m => Except.error (ApiError.internalError m)
  | Except.ok none => Except.error (ApiError.notFound ("Trip not found"))
  | Except.ok (some trip) =>
    if trip.status ≠ TripStatus.IN_PROGRESS then
      Except.error (ApiError.badRequest
        ("Can only complete stops for IN_PROGRESS trip, current status: "
          ++ trip.status.value))
    else if trip.driverId ≠ some driverId then
      Except.error (ApiError.forbidden ("This trip is not assigned to you"))
    else
      match scalarOneOrNone (fun s => decide (s.id = stopId)
        && decide (s.tripId = tripId)) db.stops with
      | Except.error m => Except.error (ApiError.internalError m)
      | Except.ok none =>
        Except.error (ApiError.notFound ("Stop not found for this trip"))
      | Except.ok (some stop) =>
        if stop.status = TripStopStatus.COMPLETED then
          Except.error (ApiError.badRequest ("Stop already completed"))
        else
          let expected_next_seq := maxCompletedSeq db tripId + 1
          if stop.sequenceNumber ≠ expected_next_seq then
            Except.error (ApiError.badRequest
              ("Must complete stops in order. Next stop should be sequence "
                ++ toString expected_next_seq
                ++ ", but you are trying to complete "
                ++ toString stop.sequenceNumber))
          else
            Except.ok (markStopCompleted db tripId stopId now)

/-- complete_trip (api/v1/endpoints/trip_execution.py lines 303 to 445):
guards are trip found and IN_PROGRESS and owned by the caller, and no stop
of the trip short of COMPLETED (the rejection reports the pending sequence
numbers). Then the vehicle lock (when a vehicle is assigned) is released,
the trip is marked COMPLETED, and BillingService.process_trip runs in the
same transaction: a ValueError from billing raises 409 and any other
exception 500, in both cases before db.commit(), so the whole completion
rolls back. -/
def complete_trip (hav : Rat → Rat → Rat → Rat → Rat) (db : DB)
    (driverId tripId : Nat) (now : Int) : Except ApiError DB :=
  match scalarOneOrNone (fun t => decide (t.id = tripId)) db.trips with
  | Except.error m => Except.error (ApiError.internalError m)
  | Except.ok none => Except.error (ApiError.notFound ("Trip not found"))
  | Except.ok (some trip) =>
    if trip.status ≠ TripStatus.IN_PROGRESS then
      Except.error (ApiError.badRequest
        ("Can only complete IN_PROGRESS trip, current status: " ++ trip.status.value))
    else if trip.driverId ≠ some driverId then
      Except.error (ApiError.forbidden ("This trip is not assigned to you"))
    else
      let pending := pendingStops db tripId
      if ¬ pending.isEmpty then
        Except.error (ApiError.badRequest
          ("Cannot complete trip. Pending stops: "
            ++ toString (pending.map (fun s => s.sequenceNumber))))
      else
        let afterRelease : Except ApiError DB :=
          match trip.vehicleId with
          | some vehicleId =>
            match release_vehicle_lock db vehicleId trip.id now with
            | Except.error m => Except.error (ApiError.internalError m)
            | Except.ok (dbReleased, _) => Except.ok dbReleased
          | none => Except.ok db
        match afterRelease with
        | Except.error e => Except.error e
        | Except.ok db1 =>
          let db2 : DB := markTripCompleted db1 tripId now
          match process_trip hav now db2 tripId with
          | Except.ok (db3, _) => Except.ok db3
          | Except.error (PyError.valueError m) =>
            Except.error (ApiError.conflict ("Billing processing failed: " ++ m))
          | Except.error (PyError.attributeError _) =>
            Except.error (ApiError.internalError
              ("Internal error during billing calculation"))

/-- assign_driver_to_trip (api/v1/endpoints/driver_assignment.py lines 27 to
140), called by a FLEET_OWNER: guards are trip found, trip owned by the
caller (verify_ownership for a fleet owner compares the caller id with the
resource owner id), trip PLANNED, driver found with role DRIVER, driver
active, driver belonging to the caller's fleet, and the connectivity check
admitting; then driver_id is set and the status moves to PENDING. -/
def assign_driver_to_trip (hav : Rat → Rat → Rat → Rat → Rat) (db : DB)
    (currentUserId tripId driverId : Nat) : Except ApiError DB :=
  match scalarOneOrNone (fun t => decide (t.id = tripId)) db.trips with
  | Except.error m => Except.error (ApiError.internalError m)
  | Except.ok none => Except.error (ApiError.notFound ("Trip not found"))
  | Except.ok (some trip) =>
    if trip.fleetOwnerId ≠ currentUserId then
      Except.error (ApiError.forbidden
        ("Access denied. You do not have permission to access this trip."))
    else if trip.status ≠ TripStatus.PLANNED then
      Except.error (ApiError.badRequest
        ("Can only assign driver to PLANNED trip, current status: "
          ++ trip.status.value))
    else
      match scalarOneOrNone (fun u => decide (u.id = driverId)) db.users with
      | Except.error m => Except.error (ApiError.internalError m)
      | Except.ok none => Except.error (ApiError.notFound ("Driver not found"))
      | Except.ok (some driver) =>
        if driver.role ≠ UserRole.DRIVER then
          Except.error (ApiError.badRequest ("User is not a driver"))
        else if ¬ driver.isActive then
          Except.error (ApiError.badRequest ("Driver is not active"))
        else if driver.fleetOwnerId ≠ some currentUserId then
          Except.error (ApiError.forbidden ("Driver does not belong to your fleet"))
        else
          match can_assign_driver_to_trip hav db driverId trip with
          | Except.error m => Except.error (ApiError.internalError m)
          | Except.ok (can_assign, reason) =>
            if ¬ can_assign then
              Except.error (ApiError.badRequest ("Cannot assign driver: " ++ reason))
            else
              Except.ok (setTripDriver db tripId driverId)

/-- unassign_driver_from_trip (api/v1/endpoints/driver_assignment.py lines
143 to 207), called by a FLEET_OWNER: guards are trip found, owned by the
caller, PENDING, with a driver assigned; then driver_id is cleared and the
status moves back to PLANNED. -/
def unassign_driver_from_trip (db : DB) (currentUserId tripId : Nat) :
    Except ApiError DB :=
  match scalarOneOrNone (fun t => decide (t.id = tripId)) db.trips with
  | Except.error m => Except.error (ApiError.internalError m)
  | Except.ok none => Except.error (ApiError.notFound ("Trip not found"))
  | Except.ok (some trip) =>
    if trip.fleetOwnerId ≠ currentUserId then
      Except.error (ApiError.forbidden
        ("Access denied. You do not have permission to access this trip."))
    else if trip.status ≠ TripStatus.PENDING then
      Except.error (ApiError.badRequest
        ("Can only unassign driver from PENDING trip, current status: "
          ++ trip.status.value))
    else if trip.driverId = none then
      Except.error (ApiError.badRequest ("No driver assigned to this trip"))
    else
      Except.ok (clearTripDriver db tripId)

/-- The writes of create_trip (api/v1/endpoints/trip_creation.py lines 156
to 206): a new trip is inserted with driver_id null and status PLANNED,
together with a PICKUP stop of sequence 1 and a DELIVERY stop of sequence 2,
both PENDING, referencing the trip and the parcel. The earlier validation
chain of the handler (route request, hub, vehicle capacity) only decides
whether these writes happen at all: a validation failure raises before any
write, leaving the database unchanged, and is therefore not modelled. -/
def create_trip (db : DB) (fleetOwnerId routeId : Nat) (vehicleId : Option Nat)
    (parcelId : Nat) (now : Int) : DB :=
  let tripRowId := db.nextId
  let new_trip : Trip :=
    { id := tripRowId, fleetOwnerId := fleetOwnerId, routeId := routeId,
      vehicleId := vehicleId, driverId := none, status := TripStatus.PLANNED,
      createdAt := now, startedAt := none, completedAt := none }
  let pickup_stop : TripStop :=
    { id := db.nextId + 1, tripId := tripRowId, parcelId := parcelId,
      stopType := TripStopType.PICKUP, sequenceNumber := 1,
      status := TripStopStatus.PENDING, completedAt := none }
  let delivery_stop : TripStop :=
    { id := db.nextId + 2, tripId := tripRowId, parcelId := parcelId,
      stopType := TripStopType.DELIVERY, sequenceNumber := 2,
      status := TripStopStatus.PENDING, completedAt := none }
  { db with
    trips := db.trips ++ [new_trip],
    stops := db.stops ++ [pickup_stop, delivery_stop],
    nextId := db.nextId + 3 }

/-! ## The public operations as a transition system -/

/-- One invocation of a public operation, with the arguments the embedded
handler reads (the clock arguments stand for datetime.utcnow()). -/
inductive Op where
  | createTrip (fleetOwnerId routeId : Nat) (vehicleId : Option Nat)
      (parcelId : Nat) (now : Int)
  | assignDriver (currentUserId tripId driverId : Nat)
  | unassignDriver (currentUserId tripId : Nat)
  | startTrip (driverId tripId : Nat) (now : Int)
  | completeStop (driverId tripId stopId : Nat) (now : Int)
  | completeTrip (driverId tripId : Nat) (now : Int)

/-- Run one operation against the database. -/
def runOp (hav : Rat → Rat → Rat → Rat → Rat) (db : DB) : Op → Except ApiError DB
  | Op.createTrip f r v p now => Except.ok (create_trip db f r v p now)
  | Op.assignDriver u t d => assign_driver_to_trip hav db u t d
  | Op.unassignDriver u t => unassign_driver_from_trip db u t
  | Op.startTrip d t now => start_trip db d t now
  | Op.completeStop d t s now => complete_stop db d t s now
  | Op.completeTrip d t now => complete_trip hav db d t now

/-- The committed state after one operation: the handler result on success,
the unchanged input state when the handler raised (rollback). -/
def step (hav : Rat → Rat → Rat → Rat → Rat) (db : DB) (op : Op) : DB :=
  match runOp hav db op with
  | Except.ok db1 => db1
  | Except.error _ => db

/-- States reachable from a starting state through the public operations. -/
inductive Reachable (hav : Rat → Rat → Rat → Rat → Rat) (db0 : DB) : DB → Prop where
  | refl : Reachable hav db0 db0
  | tail {db1 : DB} (h : Reachable hav db0 db1) (op : Op) :
      Reachable hav db0 (step hav db1 op)

/-! ## State invariants -/

/-- Every trip row id is below the id counter (autoincrement freshness). -/
def tripIdsFresh (db : DB) : Prop :=
  ∀ t ∈ db.trips, t.id < db.nextId

/-- At most one unreleased lock per vehicle: the storage-level partial
unique index, stated over the materialized state. -/
def lockPerVehicle (db : DB) : Prop :=
  ∀ v, (liveLocksFor db v).length ≤ 1

/-- No trip is COMPLETED while one of its stops is not COMPLETED. -/
def completedTripsStopsDone (db : DB) : Prop :=
  ∀ t ∈ db.trips, t.status = TripStatus.COMPLETED →
    ∀ s ∈ db.stops, s.tripId = t.id → s.status = TripStopStatus.COMPLETED

/-- No trip has a driver assigned while its status is PLANNED. -/
def driverImpliesNotPlanned (db : DB) : Prop :=
  ∀ t ∈ db.trips, t.driverId ≠ none → t.status ≠ TripStatus.PLANNED

/-- The conjunction of the state invariants preserved by every operation. -/
def Inv (db : DB) : Prop :=
  tripIdsFresh db ∧ lockPerVehicle db ∧ completedTripsStopsDone db ∧
    driverImpliesNotPlanned db

/-! ## Basic lemmas about the embedding -/

theorem scalar_ok_some_iff (p : α → Bool) (xs : List α) (x : α) :
    scalarOneOrNone p xs = Except.ok (some x) ↔ xs.filter p = [x] := by
  unfold scalarOneOrNone
  rcases hf : xs.filter p with _ | ⟨a, _ | ⟨b, l⟩⟩ <;> simp

theorem scalar_ok_none_iff (p : α → Bool) (xs : List α) :
    scalarOneOrNone p xs = Except.ok none ↔ xs.filter p = [] := by
  unfold scalarOneOrNone
  rcases hf : xs.filter p with _ | ⟨a, _ | ⟨b, l⟩⟩ <;> simp

theorem filter_eq_single_mem {p : α → Bool} {xs : List α} {x : α}
    (h : xs.filter p = [x]) : x ∈ xs ∧ p x = true := by
  have hx : x ∈ xs.filter p := by rw [h]; exact List.mem_singleton.mpr rfl
  exact List.mem_filter.mp hx

/-- Every call of BillingService.process_trip raises AttributeError while
building its first query: the Trip mapped class declares no trip_stops
relationship. -/
theorem process_trip_eq_error (hav : Rat → Rat → Rat → Rat → Rat) (now : Int)
    (db : DB) (tripId : Nat) :
    process_trip hav now db tripId =
      Except.error (PyError.attributeError
        ("type object Trip has no attribute trip_stops")) := rfl

/-- Consequently complete_trip never reaches its commit: the billing call
inside it fails on every invocation. -/
theorem complete_trip_no_ok (hav : Rat → Rat → Rat → Rat → Rat) (db : DB)
    (d t : Nat) (now : Int) (db1 : DB) :
    complete_trip hav db d t now ≠ Except.ok db1 := by
  intro h
  unfold complete_trip at h
  repeat' split at h
  all_goals by_cases hp : (pendingStops db t).isEmpty
  all_goals simp_all [process_trip_eq_error]

/-! ## Invariant preservation for each database write -/

theorem inv_clearTripDriver {db : DB} {tid : Nat} (hInv : Inv db) :
    Inv (clearTripDriver db tid) := by
  obtain ⟨hFresh, hLock, hDone, hDrv⟩ := hInv
  refine ⟨?_, hLock, ?_, ?_⟩
  · intro t ht
    simp only [clearTripDriver] at ht ⊢
    obtain ⟨t1, h1, rfl⟩ := List.mem_map.mp ht
    have := hFresh t1 h1
    by_cases hid : t1.id = tid <;> simp [hid] <;> omega
  · intro t ht hc s hs hstrip
    simp only [clearTripDriver] at ht hs hstrip ⊢
    obtain ⟨t1, h1, rfl⟩ := List.mem_map.mp ht
    by_cases hid : t1.id = tid
    · simp [hid] at hc
    · simp [hid] at hc hstrip
      exact hDone t1 h1 hc s hs hstrip
  · intro t ht hd
    simp only [clearTripDriver] at ht ⊢
    obtain ⟨t1, h1, rfl⟩ := List.mem_map.mp ht
    by_cases hid : t1.id = tid
    · simp [hid] at hd
    · simp [hid] at hd ⊢
      exact hDrv t1 h1 hd

theorem inv_setTripDriver {db : DB} {tid d : Nat} (hInv : Inv db) :
    Inv (setTripDriver db tid d) := by
  obtain ⟨hFresh, hLock, hDone, hDrv⟩ := hInv
  refine ⟨?_, hLock, ?_, ?_⟩
  · intro t ht
    simp only [setTripDriver] at ht ⊢
    obtain ⟨t1, h1, rfl⟩ := List.mem_map.mp ht
    have := hFresh t1 h1
    by_cases hid : t1.id = tid <;> simp [hid] <;> omega
  · intro t ht hc s hs hstrip
    simp only [setTripDriver] at ht hs hstrip ⊢
    obtain ⟨t1, h1, rfl⟩ := List.mem_map.mp ht
    by_cases hid : t1.id = tid
    · simp [hid] at hc
    · simp [hid] at hc hstrip
      exact hDone t1 h1 hc s hs hstrip
  · intro t ht hd
    simp only [setTripDriver] at ht ⊢
    obtain ⟨t1, h1, rfl⟩ := List.mem_map.mp ht
    by_cases hid : t1.id = tid
    · simp [hid]
    · simp [hid] at hd ⊢
      exact hDrv t1 h1 hd

theorem inv_markTripStarted {db : DB} {tid : Nat} {now : Int} (hInv : Inv db) :
    Inv (markTripStarted db tid now) := by
  obtain ⟨hFresh, hLock, hDone, hDrv⟩ := hInv
  refine ⟨?_, hLock, ?_, ?_⟩
  · intro t ht
    simp only [markTripStarted] at ht ⊢
    obtain ⟨t1, h1, rfl⟩ := List.mem_map.mp ht
    have := hFresh t1 h1
    by_cases hid : t1.id = tid <;> simp [hid] <;> omega
  · intro t ht hc s hs hstrip
    simp only [markTripStarted] at ht hs hstrip ⊢
    obtain ⟨t1, h1, rfl⟩ := List.mem_map.mp ht
    by_cases hid : t1.id = tid
    · simp [hid] at hc
    · simp [hid] at hc hstrip
      exact hDone t1 h1 hc s hs hstrip
  · intro t ht hd
    simp only [markTripStarted] at ht ⊢
    obtain ⟨t1, h1, rfl⟩ := List.mem_map.mp ht
    by_cases hid : t1.id = tid
    · simp [hid]
    · simp [hid] at hd ⊢
      exact hDrv t1 h1 hd

theorem inv_markStopCompleted {db : DB} {tid sid : Nat} {now : Int}
    (hInv : Inv db) : Inv (markStopCompleted db tid sid now) := by
  obtain ⟨hFresh, hLock, hDone, hDrv⟩ := hInv
  refine ⟨hFresh, hLock, ?_, hDrv⟩
  intro t ht hc s hs hstrip
  simp only [markStopCompleted] at hs hstrip ⊢
  obtain ⟨s1, h1, rfl⟩ := List.mem_map.mp hs
  by_cases hid : decide (s1.id = sid) && decide (s1.tripId = tid)
  · simp [hid]
  · simp [hid] at hstrip ⊢
    exact hDone t ht hc s1 h1 hstrip

theorem inv_addLiveLock {db : DB} {v t d : Nat} {now : Int} (hInv : Inv db)
    (hNo : db.locks.any (liveForVehicle v) = false) :
    Inv (addLiveLock db v t d now) := by
  obtain ⟨hFresh, hLock, hDone, hDrv⟩ := hInv
  refine ⟨?_, ?_, hDone, hDrv⟩
  · intro t1 h1
    exact Nat.lt_trans (hFresh t1 h1) (Nat.lt_succ_self _)
  · intro v2
    simp only [addLiveLock, liveLocksFor, List.filter_append]
    by_cases hv : v2 = v
    · subst hv
      have h0 : db.locks.filter (liveForVehicle v2) = [] := by
        rw [List.filter_eq_nil_iff]
        intro a ha hpa
        exact absurd hNo (by simp [List.any_eq_true]; exact ⟨a, ha, hpa⟩)
      simp [h0, liveForVehicle, newLock]
    · have h1 : List.filter (liveForVehicle v2) [newLock db v t d now] = [] := by
        simp [liveForVehicle, newLock]
        intro hva
        exact absurd hva.symm hv
      rw [h1, List.append_nil]
      exact hLock v2

theorem inv_create_trip {db : DB} {f r : Nat} {v : Option Nat} {p : Nat}
    {now : Int} (hInv : Inv db) : Inv (create_trip db f r v p now) := by
  obtain ⟨hFresh, hLock, hDone, hDrv⟩ := hInv
  refine ⟨?_, hLock, ?_, ?_⟩
  · intro t ht
    simp only [create_trip, List.mem_append] at ht
    rcases ht with ht | ht
    · calc t.id < db.nextId := hFresh t ht
        _ < db.nextId + 3 := by omega
    · simp only [create_trip, List.mem_singleton] at ht
      subst ht
      simp [create_trip]
  · intro t ht hc s hs hstrip
    simp only [create_trip, List.mem_append] at ht hs
    rcases ht with ht | ht
    · rcases hs with hs | hs
      · exact hDone t ht hc s hs hstrip
      · have hlt : t.id < db.nextId := hFresh t ht
        have hsid : s.tripId = db.nextId := by
          simp only [List.mem_cons, List.not_mem_nil, or_false] at hs
          rcases hs with rfl | rfl <;> rfl
        rw [hsid] at hstrip
        omega
    · simp only [List.mem_singleton] at ht
      subst ht
      simp at hc
  · intro t ht hd
    simp only [create_trip, List.mem_append] at ht
    rcases ht with ht | ht
    · exact hDrv t ht hd
    · simp only [List.mem_singleton] at ht
      subst ht
      simp at hd

/-! ## Invariant preservation for each handler and for the step relation -/

theorem inv_assign {hav : Rat → Rat → Rat → Rat → Rat} {db : DB}
    {u tid d : Nat} {db1 : DB} (hInv : Inv db)
    (h : assign_driver_to_trip hav db u tid d = Except.ok db1) : Inv db1 := by
  unfold assign_driver_to_trip at h
  repeat' split at h
  any_goals exact Except.noConfusion h
  injection h with h
  subst h
  exact inv_setTripDriver hInv

theorem inv_unassign {db : DB} {u tid : Nat} {db1 : DB} (hInv : Inv db)
    (h : unassign_driver_from_trip db u tid = Except.ok db1) : Inv db1 := by
  unfold unassign_driver_from_trip at h
  repeat' split at h
  any_goals exact Except.noConfusion h
  injection h with h
  subst h
  exact inv_clearTripDriver hInv

theorem inv_start {db : DB} {d tid : Nat} {now : Int} {db1 : DB} (hInv : Inv db)
    (h : start_trip db d tid now = Except.ok db1) : Inv db1 := by
  unfold start_trip at h
  repeat' split at h
  any_goals exact Except.noConfusion h
  · -- vehicle assigned: the lock insert succeeded
    rename_i vehicleId heqV xres dbLocked lk heqLock
    injection h with h
    subst h
    unfold create_vehicle_lock at heqLock
    split at heqLock
    · exact Except.noConfusion heqLock
    · rename_i hAny
      injection heqLock with heqPair
      have hNo : db.locks.any (liveForVehicle vehicleId) = false := by
        simpa using hAny
      cases heqPair
      exact inv_markTripStarted (inv_addLiveLock hInv hNo)
  · -- no vehicle assigned
    injection h with h
    subst h
    exact inv_markTripStarted hInv

theorem inv_complete_stop {db : DB} {d tid sid : Nat} {now : Int} {db1 : DB}
    (hInv : Inv db) (h : complete_stop db d tid sid now = Except.ok db1) :
    Inv db1 := by
  unfold complete_stop at h
  repeat' split at h
  any_goals exact Except.noConfusion h
  simp only [] at h
  split at h
  · exact Except.noConfusion h
  · injection h with h
    subst h
    exact inv_markStopCompleted hInv

theorem inv_step (hav : Rat → Rat → Rat → Rat → Rat) {db : DB} (hInv : Inv db)
    (op : Op) : Inv (step hav db op) := by
  cases op with
  | createTrip f r v p now =>
    simpa [step, runOp] using inv_create_trip hInv
  | assignDriver u t d =>
    unfold step runOp
    split
    · exact inv_assign hInv (by assumption)
    · exact hInv
  | unassignDriver u t =>
    unfold step runOp
    split
    · exact inv_unassign hInv (by assumption)
    · exact hInv
  | startTrip d t now =>
    unfold step runOp
    split
    · exact inv_start hInv (by assumption)
    · exact hInv
  | completeStop d t s now =>
    unfold step runOp
    split
    · exact inv_complete_stop hInv (by assumption)
    · exact hInv
  | completeTrip d t now =>
    unfold step runOp
    split
    · exact absurd (by assumption) (complete_trip_no_ok hav db d t now _)
    · exact hInv

theorem inv_reachable {hav : Rat → Rat → Rat → Rat → Rat} {db0 db : DB}
    (h0 : Inv db0) (h : Reachable hav db0 db) : Inv db := by
  induction h with
  | refl => exact h0
  | tail h op ih => exact inv_step hav ih op

theorem Inv_empty : Inv DB.empty := by
  refine ⟨?_, ?_, ?_, ?_⟩
  · intro t ht; simp [DB.empty] at ht
  · intro v; simp [liveLocksFor, DB.empty]
  · intro t ht; simp [DB.empty] at ht
  · intro t ht; simp [DB.empty] at ht

/-! ## Concrete fixtures used by witnesses and counterexamples -/

/-- An active pricing rule valid from time 0 with no end. -/
def fixtureRule : PricingRule :=
  { id := 1, ruleName := "standard", baseRatePerKm := 5,
    weightSurchargePerKg := 2, effectiveFrom := 0, effectiveUntil := none,
    isActive := true }

/-- A route from the origin to a destination. -/
def fixtureRoute : FleetRoute :=
  { id := 10, originLat := 0, originLng := 0, destinationLat := 1,
    destinationLng := 1 }

/-- A parcel of 3 kg owned by hub owner 100. -/
def fixtureParcel : Parcel :=
  { id := 20, hubOwnerId := 100, weightKg := 3 }

/-- A COMPLETED trip of fleet owner 200 on the fixture route. -/
def fixtureTripDone : Trip :=
  { id := 1, fleetOwnerId := 200, routeId := 10, vehicleId := none,
    driverId := some 300, status := TripStatus.COMPLETED, createdAt := 0,
    startedAt := some 1, completedAt := some 2 }

/-- The completed pickup stop of the fixture trip. -/
def fixturePickupDone : TripStop :=
  { id := 30, tripId := 1, parcelId := 20, stopType := TripStopType.PICKUP,
    sequenceNumber := 1, status := TripStopStatus.COMPLETED,
    completedAt := some 1 }

/-- The completed delivery stop of the fixture trip. -/
def fixtureDeliveryDone : TripStop :=
  { id := 31, tripId := 1, parcelId := 20, stopType := TripStopType.DELIVERY,
    sequenceNumber := 2, status := TripStopStatus.COMPLETED,
    completedAt := some 2 }

/-- A completed trip with both stops completed, its parcel, its route and an
active pricing rule: every precondition of the documented billing flow
holds in this state. -/
def fixtureBillingDb : DB :=
  { users := [], routes := [fixtureRoute], parcels := [fixtureParcel],
    trips := [fixtureTripDone],
    stops := [fixturePickupDone, fixtureDeliveryDone],
    locks := [], rules := [fixtureRule], charges := [], settlements := [],
    ledger := [], nextId := 50 }

/-- A constant distance function standing in for haversine_distance. -/
def havConst10 : Rat → Rat → Rat → Rat → Rat := fun _ _ _ _ => 10

/-! ## Claim theorems -/

/-- C1: for every trip with status COMPLETED, a second ProcessTrip call on
the same trip id would have to return the TripCharge of the first call.
The code cannot do this: every call of BillingService.process_trip raises
AttributeError while evaluating joinedload(Trip.trip_stops) in its first
statement (billing_service.py line 59), because the Trip mapped class
declares no trip_stops relationship. No call, first or repeated, ever
returns a TripCharge, so the claimed idempotent replay fails. -/
theorem C1_process_trip_never_returns_a_charge :
    ∀ (hav : Rat → Rat → Rat → Rat → Rat) (now : Int) (db : DB) (tripId : Nat),
      process_trip hav now db tripId =
        Except.error (PyError.attributeError
          ("type object Trip has no attribute trip_stops")) :=
  fun hav now db tripId => process_trip_eq_error hav now db tripId

/-- C7: on a state satisfying every precondition of the documented billing
flow (completed trip, completed stops, parcel, route, active pricing rule,
no prior TripCharge), the first processing of the trip does not persist a
TripCharge, a Settlement or a ledger pair: the call raises AttributeError
at joinedload(Trip.trip_stops) before any computation, so the claimed
charge arithmetic and double-entry posting never happen. -/
theorem C7_first_processing_posts_nothing :
    process_trip havConst10 100 fixtureBillingDb 1 =
      Except.error (PyError.attributeError
        ("type object Trip has no attribute trip_stops")) ∧
    fixtureBillingDb.charges = [] ∧ fixtureBillingDb.settlements = [] ∧
    fixtureBillingDb.ledger = [] :=
  ⟨rfl, rfl, rfl, rfl⟩

/-- C2: in every state reachable from a state satisfying the invariants, at
most one unreleased VehicleLock exists per vehicle; and a Start call on a
trip whose vehicle already has a live lock fails with a 409 Conflict while
the committed state is unchanged, so no second live lock appears. -/
theorem C2_at_most_one_live_lock :
    (∀ (hav : Rat → Rat → Rat → Rat → Rat) (db0 db : DB), Inv db0 →
       Reachable hav db0 db → ∀ v, (liveLocksFor db v).length ≤ 1) ∧
    (∀ (db : DB) (d tid : Nat) (now : Int) (trip : Trip) (v : Nat),
       db.trips.filter (fun t => decide (t.id = tid)) = [trip] →
       trip.status = TripStatus.PENDING →
       trip.driverId = some d →
       count_driver_in_progress_trips db d = 0 →
       trip.vehicleId = some v →
       liveLocksFor db v ≠ [] →
       start_trip db d tid now = Except.error (ApiError.conflict
         ("Vehicle " ++ toString v ++ " is already locked by another trip")) ∧
       ∀ hav, step hav db (Op.startTrip d tid now) = db) := by
  constructor
  · intro hav db0 db h0 hr v
    exact (inv_reachable h0 hr).2.1 v
  · intro db d tid now trip v hfilter hst hdrv hcount hveh hlive
    have hscalar : scalarOneOrNone (fun t => decide (t.id = tid)) db.trips =
        Except.ok (some trip) := (scalar_ok_some_iff _ _ _).mpr hfilter
    have hany : db.locks.any (liveForVehicle v) = true := by
      rcases hl : liveLocksFor db v with _ | ⟨a, l⟩
      · exact absurd hl hlive
      · have ha : a ∈ liveLocksFor db v := by rw [hl]; exact List.mem_cons_self a l
        have hm := List.mem_filter.mp ha
        exact List.any_eq_true.mpr ⟨a, hm.1, hm.2⟩
    have hstart : start_trip db d tid now = Except.error (ApiError.conflict
        ("Vehicle " ++ toString v ++ " is already locked by another trip")) := by
      unfold start_trip
      rw [hscalar]
      simp only [hst, hdrv, hcount, hveh, create_vehicle_lock, hany]
      simp
    refine ⟨hstart, ?_⟩
    intro hav
    simp only [step, runOp]
    rw [hstart]

/-- A PENDING trip assigned to driver 3 on vehicle 5. -/
def fixturePendingTrip : Trip :=
  { id := 1, fleetOwnerId := 9, routeId := 10, vehicleId := some 5,
    driverId := some 3, status := TripStatus.PENDING, createdAt := 0,
    startedAt := none, completedAt := none }

/-- A live lock on vehicle 5 held by another trip. -/
def fixtureForeignLock : VehicleLock :=
  { id := 2, vehicleId := 5, tripId := 77, lockedByDriverId := 4,
    lockedAt := 0, releasedAt := none }

/-- The state where driver 3 tries to start trip 1 on vehicle 5 while the
vehicle already carries a live lock. -/
def fixtureLockedDb : DB :=
  { DB.empty with
    trips := [fixturePendingTrip],
    locks := [fixtureForeignLock],
    nextId := 100 }

/-- Witness for C2 at concrete states: the empty database trivially has at
most one live lock for vehicle 5, and a concrete PENDING trip on a vehicle
with a live foreign lock is refused with the 409 Conflict. -/
theorem C2_witness :
    (liveLocksFor DB.empty 5).length ≤ 1 ∧
    start_trip fixtureLockedDb 3 1 50 =
      Except.error (ApiError.conflict
        ("Vehicle " ++ toString 5 ++ " is already locked by another trip")) := by
  constructor
  · exact C2_at_most_one_live_lock.1 havConst10 DB.empty DB.empty Inv_empty
      Reachable.refl 5
  · exact (C2_at_most_one_live_lock.2 fixtureLockedDb 3 1 50
      fixturePendingTrip 5 (by decide) (by decide) (by decide) (by decide)
      (by decide) (by decide)).1

/-- The database after release_vehicle_lock stamps released_at on lock l. -/
def releaseUpd (db : DB) (l : VehicleLock) (now : Int) : DB :=
  { db with locks := db.locks.map (fun x =>
      if x.id = l.id then { x with releasedAt := some now } else x) }

/-- C9: Release is idempotent. When no unreleased lock exists for the
(vehicle, trip) pair the call returns false without raising; when exactly
one held lock exists the call returns true and stamps released_at on it,
after which a second release of the same pair returns false. -/
theorem C9_release_idempotent :
    ∀ (db : DB) (v t : Nat) (now : Int),
      (livePairLocks db v t = [] →
        release_vehicle_lock db v t now = Except.ok (db, false)) ∧
      (∀ l, livePairLocks db v t = [l] →
        release_vehicle_lock db v t now =
          Except.ok (releaseUpd db l now, true) ∧
        ∀ now2, release_vehicle_lock (releaseUpd db l now) v t now2 =
          Except.ok (releaseUpd db l now, false)) := by
  intro db v t now
  have relNone : ∀ (dbx : DB) (nowx : Int), livePairLocks dbx v t = [] →
      release_vehicle_lock dbx v t nowx = Except.ok (dbx, false) := by
    intro dbx nowx hnil
    have hs : scalarOneOrNone (livePair v t) dbx.locks = Except.ok none :=
      (scalar_ok_none_iff _ _).mpr hnil
    unfold release_vehicle_lock
    rw [hs]
    rfl
  constructor
  · exact relNone db now
  · intro l hl
    have hs : scalarOneOrNone (livePair v t) db.locks = Except.ok (some l) :=
      (scalar_ok_some_iff _ _ _).mpr hl
    have hrel : release_vehicle_lock db v t now =
        Except.ok (releaseUpd db l now, true) := by
      unfold release_vehicle_lock
      rw [hs]
      rfl
    refine ⟨hrel, ?_⟩
    intro now2
    have hempty : livePairLocks (releaseUpd db l now) v t = [] := by
      unfold livePairLocks releaseUpd
      rw [List.filter_eq_nil_iff]
      intro a ha hpa
      simp only [List.mem_map] at ha
      obtain ⟨b, hb, rfl⟩ := ha
      by_cases hid : b.id = l.id
      · simp [hid, livePair] at hpa
      · simp only [hid, if_false] at hpa
        have hbmem : b ∈ livePairLocks db v t := List.mem_filter.mpr ⟨hb, hpa⟩
        rw [hl] at hbmem
        simp only [List.mem_singleton] at hbmem
        exact hid (by rw [hbmem])
    exact relNone (releaseUpd db l now) now2 hempty

/-- A live lock on vehicle 5 held by trip 7. -/
def fixtureHeldLock : VehicleLock :=
  { id := 3, vehicleId := 5, tripId := 7, lockedByDriverId := 4,
    lockedAt := 0, releasedAt := none }

/-- A state holding just that lock. -/
def fixtureHeldDb : DB :=
  { DB.empty with locks := [fixtureHeldLock], nextId := 10 }

/-- Witness for C9 at a concrete state: releasing the held (5, 7) lock
returns true, releasing it again returns false, and releasing on the empty
state returns false without error. -/
theorem C9_witness :
    release_vehicle_lock fixtureHeldDb 5 7 50 =
      Except.ok (releaseUpd fixtureHeldDb fixtureHeldLock 50, true) ∧
    release_vehicle_lock (releaseUpd fixtureHeldDb fixtureHeldLock 50) 5 7 60 =
      Except.ok (releaseUpd fixtureHeldDb fixtureHeldLock 50, false) ∧
    release_vehicle_lock DB.empty 5 7 50 = Except.ok (DB.empty, false) := by
  have h2 := (C9_release_idempotent fixtureHeldDb 5 7 50).2 fixtureHeldLock
    (by decide)
  exact ⟨h2.1, h2.2 60, (C9_release_idempotent DB.empty 5 7 50).1 (by decide)⟩

/-! ## Pricing resolution lemmas and claim C6 -/

theorem latestEffectiveFrom_none_iff (xs : List PricingRule) :
    latestEffectiveFrom xs = none ↔ xs = [] := by
  cases xs with
  | nil => simp [latestEffectiveFrom]
  | cons a l =>
    simp only [latestEffectiveFrom]
    cases latestEffectiveFrom l <;> simp
    split <;> simp

theorem latestEffectiveFrom_mem {xs : List PricingRule} {r : PricingRule}
    (h : latestEffectiveFrom xs = some r) : r ∈ xs := by
  induction xs with
  | nil => simp [latestEffectiveFrom] at h
  | cons a l ih =>
    unfold latestEffectiveFrom at h
    split at h
    · injection h with h
      subst h
      exact List.mem_cons_self a l
    · rename_i best hrec
      split at h <;> injection h with h <;> subst h
      · exact List.mem_cons_of_mem a (ih hrec)
      · exact List.mem_cons_self a l

theorem latestEffectiveFrom_max (xs : List PricingRule) :
    ∀ r, latestEffectiveFrom xs = some r →
      ∀ x ∈ xs, x.effectiveFrom ≤ r.effectiveFrom := by
  induction xs with
  | nil => intro r h; simp [latestEffectiveFrom] at h
  | cons a l ih =>
    intro r h x hx
    unfold latestEffectiveFrom at h
    split at h
    · rename_i hrec
      injection h with h
      subst h
      rcases List.mem_cons.mp hx with rfl | hxl
      · exact le_refl _
      · rw [(latestEffectiveFrom_none_iff l).mp hrec] at hxl
        simp at hxl
    · rename_i best hrec
      split at h <;> injection h with h <;> subst h
      · rename_i hgt
        rcases List.mem_cons.mp hx with rfl | hxl
        · exact le_of_lt hgt
        · exact ih best hrec x hxl
      · rename_i hgt
        rcases List.mem_cons.mp hx with rfl | hxl
        · exact le_refl _
        · exact le_trans (ih best hrec x hxl) (not_lt.mp hgt)

theorem ruleValidAt_true_iff (now : Int) (r : PricingRule) :
    ruleValidAt now r = true ↔
      r.isActive = true ∧ r.effectiveFrom ≤ now ∧
        (r.effectiveUntil = none ∨
          ∃ u, r.effectiveUntil = some u ∧ now ≤ u) := by
  unfold ruleValidAt
  cases hu : r.effectiveUntil <;>
    simp [hu, Bool.and_eq_true, ge_iff_le, and_assoc]

/-- C6: resolving the active pricing rule at time now returns a rule with
the active flag set, effective_from at most now, and effective_until null
or at least now, and among the qualifying rules one with the latest
effective_from; when no rule qualifies, resolution fails with the
ValueError and the enclosing billing operation fails (it raises on every
call). -/
theorem C6_pricing_rule_resolution :
    ∀ (rules : List PricingRule) (now : Int),
      (∀ r, resolve_active_rule rules now = Except.ok r →
        r ∈ rules ∧ r.isActive = true ∧ r.effectiveFrom ≤ now ∧
        (r.effectiveUntil = none ∨
          ∃ u, r.effectiveUntil = some u ∧ now ≤ u) ∧
        ∀ r2 ∈ rules, ruleValidAt now r2 = true →
          r2.effectiveFrom ≤ r.effectiveFrom) ∧
      ((∀ r ∈ rules, ruleValidAt now r = false) →
        resolve_active_rule rules now = Except.error (PyError.valueError
          ("No active pricing rule found. Cannot process billing."))) ∧
      (∀ (hav : Rat → Rat → Rat → Rat → Rat) (db : DB) (tripId : Nat),
        db.rules = rules → (∀ r ∈ rules, ruleValidAt now r = false) →
        ∃ e, process_trip hav now db tripId = Except.error e) := by
  intro rules now
  refine ⟨?_, ?_, ?_⟩
  · intro r h
    unfold resolve_active_rule at h
    cases hb : latestEffectiveFrom (rules.filter (ruleValidAt now)) with
    | none => rw [hb] at h; exact Except.noConfusion h
    | some best =>
      rw [hb] at h
      injection h with h
      subst h
      have hmem := latestEffectiveFrom_mem hb
      have hmem2 := List.mem_filter.mp hmem
      have hvalid := (ruleValidAt_true_iff now _).mp hmem2.2
      refine ⟨hmem2.1, hvalid.1, hvalid.2.1, hvalid.2.2, ?_⟩
      intro r2 hr2 hr2valid
      exact latestEffectiveFrom_max _ _ hb r2
        (List.mem_filter.mpr ⟨hr2, hr2valid⟩)
  · intro hnone
    have hfil : rules.filter (ruleValidAt now) = [] := by
      rw [List.filter_eq_nil_iff]
      intro a ha
      simp [hnone a ha]
    unfold resolve_active_rule
    rw [hfil]
    rfl
  · intro hav db tripId _ _
    exact ⟨_, process_trip_eq_error hav now db tripId⟩

/-- A second active rule with a later effective_from. -/
def fixtureRuleLater : PricingRule :=
  { id := 2, ruleName := "later", baseRatePerKm := 6,
    weightSurchargePerKg := 3, effectiveFrom := 20, effectiveUntil := none,
    isActive := true }

/-- Witness for C6 at concrete inputs: with two rules effective from 0 and
from 20, resolution at time 25 picks the later one and it dominates every
qualifying rule; at time -5 no rule qualifies and resolution fails. -/
theorem C6_witness :
    resolve_active_rule [fixtureRule, fixtureRuleLater] 25 =
      Except.ok fixtureRuleLater ∧
    fixtureRuleLater ∈ [fixtureRule, fixtureRuleLater] ∧
    (∀ r2 ∈ [fixtureRule, fixtureRuleLater], ruleValidAt 25 r2 = true →
      r2.effectiveFrom ≤ fixtureRuleLater.effectiveFrom) ∧
    resolve_active_rule [fixtureRule, fixtureRuleLater] (-5) =
      Except.error (PyError.valueError
        ("No active pricing rule found. Cannot process billing.")) := by
  have h1 := (C6_pricing_rule_resolution [fixtureRule, fixtureRuleLater] 25).1
    fixtureRuleLater rfl
  have h2 := (C6_pricing_rule_resolution [fixtureRule, fixtureRuleLater]
    (-5)).2.1 (by decide)
  exact ⟨rfl, h1.1, h1.2.2.2.2, h2⟩

/-! ## Connectivity lemmas and claim C3 -/

theorem connectivityLoop_all_connected
    {hav : Rat → Rat → Rat → Rat → Rat} {db : DB} {nt : Trip} :
    ∀ (ts : List Trip) (res : Bool × String),
      connectivityLoop hav db nt ts = Except.ok res → res.1 = true →
      ∀ t ∈ ts, validate_route_connectivity hav db t nt = Except.ok true := by
  intro ts
  induction ts with
  | nil => intro res h htrue t ht; simp at ht
  | cons a l ih =>
    intro res h htrue t ht
    unfold connectivityLoop at h
    split at h
    · exact Except.noConfusion h
    · rename_i c hv
      split at h
      · rename_i hc
        rcases List.mem_cons.mp ht with rfl | htl
        · simp [hv, hc]
        · exact ih res h htrue t htl
      · rename_i hc
        injection h with h
        rw [← h] at htrue
        simp at htrue

theorem connectivityLoop_first_veto
    {hav : Rat → Rat → Rat → Rat → Rat} {db : DB} {nt : Trip} :
    ∀ (pre : List Trip) (t : Trip) (post : List Trip),
      (∀ t2 ∈ pre, validate_route_connectivity hav db t2 nt = Except.ok true) →
      validate_route_connectivity hav db t nt = Except.ok false →
      connectivityLoop hav db nt (pre ++ t :: post) = Except.ok (false,
        "Route not connected to existing trip " ++ toString t.id) := by
  intro pre
  induction pre with
  | nil =>
    intro t post hpre hf
    rw [List.nil_append]
    simp only [connectivityLoop]
    rw [hf]
    rfl
  | cons a l ih =>
    intro t post hpre hf
    simp only [List.cons_append, connectivityLoop]
    rw [hpre a (List.mem_cons_self a l)]
    show connectivityLoop hav db nt (l ++ t :: post) = _
    exact ih t post (fun t2 h2 => hpre t2 (List.mem_cons_of_mem a h2)) hf

/-- C3: CanAssign fetches the driver's PLANNED trips; with none it admits;
an admission implies every held trip validated as connected, where
connectivity is exactly: both routes resolve and either the route ids
coincide or the held destination lies within 50 km of the candidate origin
with the creation instants within 2 days; and the first held trip that
fails connectivity vetoes the assignment with a reason naming it. -/
theorem C3_connectivity_admission :
    ∀ (hav : Rat → Rat → Rat → Rat → Rat) (db : DB) (d : Nat) (nt : Trip),
      (heldPlannedTrips db d = [] →
        can_assign_driver_to_trip hav db d nt =
          Except.ok (true, "No conflicts")) ∧
      (∀ res, can_assign_driver_to_trip hav db d nt = Except.ok res →
        res.1 = true → ∀ t ∈ heldPlannedTrips db d,
          validate_route_connectivity hav db t nt = Except.ok true) ∧
      (∀ t, validate_route_connectivity hav db t nt = Except.ok true ↔
        ∃ er nr,
          db.routes.filter (fun x => decide (x.id = t.routeId)) = [er] ∧
          db.routes.filter (fun x => decide (x.id = nt.routeId)) = [nr] ∧
          (er.id = nr.id ∨
            (hav er.destinationLat er.destinationLng nr.originLat nr.originLng
              ≤ CONNECTIVITY_DISTANCE_THRESHOLD_KM ∧
            (timedeltaDays (nt.createdAt - t.createdAt)).natAbs
              ≤ CONNECTIVITY_DATE_THRESHOLD_DAYS))) ∧
      (∀ (pre : List Trip) (t : Trip) (post : List Trip),
        heldPlannedTrips db d = pre ++ t :: post →
        (∀ t2 ∈ pre,
          validate_route_connectivity hav db t2 nt = Except.ok true) →
        validate_route_connectivity hav db t nt = Except.ok false →
        can_assign_driver_to_trip hav db d nt = Except.ok (false,
          "Route not connected to existing trip " ++ toString t.id)) := by
  intro hav db d nt
  refine ⟨?_, ?_, ?_, ?_⟩
  · intro h
    unfold can_assign_driver_to_trip
    rw [h]
    rfl
  · intro res h htrue t ht
    unfold can_assign_driver_to_trip at h
    by_cases hempty : (heldPlannedTrips db d).isEmpty
    · rw [List.isEmpty_iff] at hempty
      rw [hempty] at ht
      simp at ht
    · simp only [hempty, if_false, Bool.false_eq_true] at h
      exact connectivityLoop_all_connected (heldPlannedTrips db d) res h htrue t ht
  · intro t
    constructor
    · intro h
      unfold validate_route_connectivity at h
      split at h
      · exact Except.noConfusion h
      · rename_i er0 heq1
        split at h
        · exact Except.noConfusion h
        · rename_i nr0 heq2
          split at h
          · rename_i er nr
            refine ⟨er, nr, (scalar_ok_some_iff _ _ _).mp heq1,
              (scalar_ok_some_iff _ _ _).mp heq2, ?_⟩
            split at h
            · rename_i hid
              exact Or.inl hid
            · rename_i hid
              split at h
              · rename_i hdist
                split at h
                · rename_i htime
                  exact Or.inr ⟨hdist, htime⟩
                · simp at h
              · simp at h
          · simp at h
    · rintro ⟨er, nr, hfe, hfn, hdisj⟩
      unfold validate_route_connectivity
      rw [(scalar_ok_some_iff _ _ _).mpr hfe, (scalar_ok_some_iff _ _ _).mpr hfn]
      rcases hdisj with heq | ⟨hdist, htime⟩
      · simp [heq]
      · by_cases hid : er.id = nr.id
        · simp [hid]
        · simp [hid, hdist, htime]
  · intro pre t post hheld hpre hf
    have hne : ((pre ++ t :: post).isEmpty) = false := by
      cases pre <;> rfl
    unfold can_assign_driver_to_trip
    rw [hheld]
    show (if (pre ++ t :: post).isEmpty = true then
        Except.ok (true, "No conflicts")
      else connectivityLoop hav db nt (pre ++ t :: post)) =
      Except.ok (false,
        "Route not connected to existing trip " ++ toString t.id)
    rw [hne]
    simp only [Bool.false_eq_true, if_false]
    exact connectivityLoop_first_veto pre t post hpre hf

/-- The held route R1, ending at the point the fixture distance function
reports as 80 km from the candidate origin. -/
def fixtureRouteR1 : FleetRoute :=
  { id := 1, originLat := 0, originLng := 0, destinationLat := 7,
    destinationLng := 7 }

/-- The candidate route R2. -/
def fixtureRouteR2 : FleetRoute :=
  { id := 2, originLat := 9, originLng := 9, destinationLat := 12,
    destinationLng := 12 }

/-- Held trip A of driver 7: PLANNED on route R1, created at time 0. -/
def fixtureTripA : Trip :=
  { id := 1, fleetOwnerId := 50, routeId := 1, vehicleId := none,
    driverId := some 7, status := TripStatus.PLANNED, createdAt := 0,
    startedAt := none, completedAt := none }

/-- Candidate trip B: route R2, created one day after A. -/
def fixtureTripB : Trip :=
  { id := 2, fleetOwnerId := 50, routeId := 2, vehicleId := none,
    driverId := none, status := TripStatus.PLANNED, createdAt := 86400,
    startedAt := none, completedAt := none }

/-- The state for the connectivity scenario. -/
def fixtureConnDb : DB :=
  { DB.empty with
    routes := [fixtureRouteR1, fixtureRouteR2],
    trips := [fixtureTripA],
    nextId := 100 }

/-- A distance function reporting 80 km between any two points. -/
def havConst80 : Rat → Rat → Rat → Rat → Rat := fun _ _ _ _ => 80

/-- Witness for C3 at the spec scenario: driver 7 holds PLANNED trip A on
route R1; candidate B is on route R2 with origin 80 km from the destination
of R1 and created 1 day later; CanAssign refuses naming trip A. -/
theorem C3_witness :
    can_assign_driver_to_trip havConst80 fixtureConnDb 7 fixtureTripB =
      Except.ok (false,
        "Route not connected to existing trip " ++ toString (1 : Nat)) := by
  have h := (C3_connectivity_admission havConst80 fixtureConnDb 7
    fixtureTripB).2.2.2 [] fixtureTripA [] (by decide)
    (by intro t2 h2; simp at h2) (by rfl)
  exact h

/-! ## Claim C4: strict stop sequencing -/

/-- C4: CompleteStop succeeds exactly on an IN_PROGRESS trip owned by the
caller, for a stop of that trip that is not yet COMPLETED and whose
sequence number is one more than the highest completed sequence number of
the trip (0 when none is completed); an out-of-order attempt on such a
stop is rejected with an error reporting the expected next sequence. -/
theorem C4_stop_sequence_enforcement :
    ∀ (db : DB) (d tid sid : Nat) (now : Int),
      (∀ db1, complete_stop db d tid sid now = Except.ok db1 →
        ∃ trip stop,
          db.trips.filter (fun t => decide (t.id = tid)) = [trip] ∧
          trip.status = TripStatus.IN_PROGRESS ∧
          trip.driverId = some d ∧
          db.stops.filter (fun s => decide (s.id = sid)
            && decide (s.tripId = tid)) = [stop] ∧
          stop.status ≠ TripStopStatus.COMPLETED ∧
          stop.sequenceNumber = maxCompletedSeq db tid + 1 ∧
          db1 = markStopCompleted db tid sid now) ∧
      (∀ trip stop,
        db.trips.filter (fun t => decide (t.id = tid)) = [trip] →
        trip.status = TripStatus.IN_PROGRESS →
        trip.driverId = some d →
        db.stops.filter (fun s => decide (s.id = sid)
          && decide (s.tripId = tid)) = [stop] →
        stop.status ≠ TripStopStatus.COMPLETED →
        stop.sequenceNumber ≠ maxCompletedSeq db tid + 1 →
        complete_stop db d tid sid now = Except.error (ApiError.badRequest
          ("Must complete stops in order. Next stop should be sequence "
            ++ toString (maxCompletedSeq db tid + 1)
            ++ ", but you are trying to complete "
            ++ toString stop.sequenceNumber))) := by
  intro db d tid sid now
  constructor
  · intro db1 h
    unfold complete_stop at h
    split at h
    · exact Except.noConfusion h
    · exact Except.noConfusion h
    · rename_i trip heqT
      split at h
      · exact Except.noConfusion h
      · rename_i hstN
        split at h
        · exact Except.noConfusion h
        · rename_i hdrvN
          split at h
          · exact Except.noConfusion h
          · exact Except.noConfusion h
          · rename_i stop heqS
            split at h
            · exact Except.noConfusion h
            · rename_i hcompN
              simp only [] at h
              split at h
              · exact Except.noConfusion h
              · rename_i hseqN
                injection h with h
                exact ⟨trip, stop, (scalar_ok_some_iff _ _ _).mp heqT,
                  not_not.mp hstN, not_not.mp hdrvN,
                  (scalar_ok_some_iff _ _ _).mp heqS, hcompN,
                  not_not.mp hseqN, h.symm⟩
  · intro trip stop hft hst hdrv hfs hcomp hseq
    have hT : scalarOneOrNone (fun t => decide (t.id = tid)) db.trips =
        Except.ok (some trip) := (scalar_ok_some_iff _ _ _).mpr hft
    have hS : scalarOneOrNone (fun s => decide (s.id = sid)
        && decide (s.tripId = tid)) db.stops =
        Except.ok (some stop) := (scalar_ok_some_iff _ _ _).mpr hfs
    unfold complete_stop
    rw [hT]
    simp only [hst, hdrv, ne_eq, not_true_eq_false, if_false, reduceIte]
    rw [hS]
    simp [hcomp, hseq]

/-- An IN_PROGRESS trip of driver 3 with stop 1 completed and stops 2 and 3
pending. -/
def fixtureSeqTrip : Trip :=
  { id := 1, fleetOwnerId := 50, routeId := 10, vehicleId := none,
    driverId := some 3, status := TripStatus.IN_PROGRESS, createdAt := 0,
    startedAt := some 1, completedAt := none }

def fixtureSeqStop1 : TripStop :=
  { id := 41, tripId := 1, parcelId := 20, stopType := TripStopType.PICKUP,
    sequenceNumber := 1, status := TripStopStatus.COMPLETED,
    completedAt := some 2 }

def fixtureSeqStop2 : TripStop :=
  { id := 42, tripId := 1, parcelId := 20, stopType := TripStopType.DELIVERY,
    sequenceNumber := 2, status := TripStopStatus.PENDING,
    completedAt := none }

def fixtureSeqStop3 : TripStop :=
  { id := 43, tripId := 1, parcelId := 20, stopType := TripStopType.DELIVERY,
    sequenceNumber := 3, status := TripStopStatus.PENDING,
    completedAt := none }

def fixtureSeqDb : DB :=
  { DB.empty with
    trips := [fixtureSeqTrip],
    stops := [fixtureSeqStop1, fixtureSeqStop2, fixtureSeqStop3],
    nextId := 100 }

/-- Witness for C4 at the spec scenario: with sequence 1 completed and 2
pending, attempting sequence 3 fails and the error reports expected
sequence 2. -/
theorem C4_witness :
    complete_stop fixtureSeqDb 3 1 43 9 = Except.error (ApiError.badRequest
      ("Must complete stops in order. Next stop should be sequence "
        ++ toString (maxCompletedSeq fixtureSeqDb 1 + 1)
        ++ ", but you are trying to complete "
        ++ toString fixtureSeqStop3.sequenceNumber)) ∧
    maxCompletedSeq fixtureSeqDb 1 + 1 = 2 := by
  refine ⟨?_, by decide⟩
  exact (C4_stop_sequence_enforcement fixtureSeqDb 3 1 43 9).2 fixtureSeqTrip
    fixtureSeqStop3 (by decide) (by decide) (by decide) (by decide)
    (by decide) (by decide)

/-! ## Claims C5 and C8: trip completion -/

/-- C5: in every reachable state no COMPLETED trip has a stop short of
COMPLETED; and the Complete transition, invoked on an IN_PROGRESS trip of
the caller with at least one non-completed stop, is rejected with an error
reporting the pending sequence numbers. -/
theorem C5_no_completed_trip_with_pending_stops :
    (∀ (hav : Rat → Rat → Rat → Rat → Rat) (db0 db : DB), Inv db0 →
      Reachable hav db0 db → completedTripsStopsDone db) ∧
    (∀ (hav : Rat → Rat → Rat → Rat → Rat) (db : DB) (d tid : Nat)
        (now : Int) (trip : Trip),
      db.trips.filter (fun t => decide (t.id = tid)) = [trip] →
      trip.status = TripStatus.IN_PROGRESS →
      trip.driverId = some d →
      pendingStops db tid ≠ [] →
      complete_trip hav db d tid now = Except.error (ApiError.badRequest
        ("Cannot complete trip. Pending stops: "
          ++ toString ((pendingStops db tid).map (fun s => s.sequenceNumber))))) := by
  constructor
  · intro hav db0 db h0 hr
    exact (inv_reachable h0 hr).2.2.1
  · intro hav db d tid now trip hft hst hdrv hpend
    have hT : scalarOneOrNone (fun t => decide (t.id = tid)) db.trips =
        Except.ok (some trip) := (scalar_ok_some_iff _ _ _).mpr hft
    have hne : (pendingStops db tid).isEmpty = false := by
      rcases hl : pendingStops db tid with _ | ⟨a, l⟩
      · exact absurd hl hpend
      · rfl
    unfold complete_trip
    rw [hT]
    simp [hst, hdrv, hne]

/-- Witness for C5: the reachable-state invariant holds at the empty state,
and completing the fixture trip with stops 2 and 3 still pending is
rejected listing those sequence numbers. -/
theorem C5_witness :
    completedTripsStopsDone DB.empty ∧
    complete_trip havConst10 fixtureSeqDb 3 1 9 =
      Except.error (ApiError.badRequest
        ("Cannot complete trip. Pending stops: "
          ++ toString ((pendingStops fixtureSeqDb 1).map
              (fun s => s.sequenceNumber)))) := by
  constructor
  · exact C5_no_completed_trip_with_pending_stops.1 havConst10 DB.empty
      DB.empty Inv_empty Reachable.refl
  · exact C5_no_completed_trip_with_pending_stops.2 havConst10 fixtureSeqDb
      3 1 9 fixtureSeqTrip (by decide) (by decide) (by decide) (by decide)

theorem release_ok_of_len_le_one {db : DB} {v t : Nat} (now : Int)
    (h : (livePairLocks db v t).length ≤ 1) :
    ∃ db1 b, release_vehicle_lock db v t now = Except.ok (db1, b) := by
  rcases hl : livePairLocks db v t with _ | ⟨a, rest⟩
  · refine ⟨db, false, ?_⟩
    unfold release_vehicle_lock
    rw [(scalar_ok_none_iff (livePair v t) db.locks).mpr
      (by simpa [livePairLocks] using hl)]
    rfl
  · rcases rest with _ | ⟨b2, l⟩
    · refine ⟨releaseUpd db a now, true, ?_⟩
      unfold release_vehicle_lock
      rw [(scalar_ok_some_iff (livePair v t) db.locks a).mpr
        (by simpa [livePairLocks] using hl)]
      rfl
    · rw [hl] at h
      simp at h

/-- C8: when completion of an IN_PROGRESS trip with every stop completed
reaches the settlement engine and the engine fails (it fails on every call),
the whole completion aborts with an error raised before commit, so the
committed state is the unchanged input state: the trip stays IN_PROGRESS,
the lock release is discarded, and no TripCharge, Settlement or LedgerEntry
is persisted. -/
theorem C8_settlement_failure_rolls_back :
    ∀ (hav : Rat → Rat → Rat → Rat → Rat) (db : DB) (d tid : Nat)
      (now : Int) (trip : Trip),
      db.trips.filter (fun t => decide (t.id = tid)) = [trip] →
      trip.status = TripStatus.IN_PROGRESS →
      trip.driverId = some d →
      pendingStops db tid = [] →
      (∀ v, trip.vehicleId = some v →
        (livePairLocks db v trip.id).length ≤ 1) →
      complete_trip hav db d tid now = Except.error (ApiError.internalError
        ("Internal error during billing calculation")) ∧
      step hav db (Op.completeTrip d tid now) = db ∧
      (step hav db (Op.completeTrip d tid now)).charges = db.charges ∧
      (step hav db (Op.completeTrip d tid now)).settlements =
        db.settlements ∧
      (step hav db (Op.completeTrip d tid now)).ledger = db.ledger := by
  intro hav db d tid now trip hft hst hdrv hpend hlock
  have hT : scalarOneOrNone (fun t => decide (t.id = tid)) db.trips =
      Except.ok (some trip) := (scalar_ok_some_iff _ _ _).mpr hft
  have hcomplete : complete_trip hav db d tid now =
      Except.error (ApiError.internalError
        ("Internal error during billing calculation")) := by
    unfold complete_trip
    rw [hT]
    rcases hveh : trip.vehicleId with _ | v
    · simp [hst, hdrv, hpend, hveh, process_trip_eq_error]
    · obtain ⟨db1, b, hrel⟩ := release_ok_of_len_le_one now (hlock v hveh)
      simp [hst, hdrv, hpend, hveh, hrel, process_trip_eq_error]
  have hstep : step hav db (Op.completeTrip d tid now) = db := by
    simp only [step, runOp]
    rw [hcomplete]
  exact ⟨hcomplete, hstep, by rw [hstep], by rw [hstep], by rw [hstep]⟩

/-- The fixture trip in progress with both stops completed and no vehicle:
completion reaches the settlement engine. -/
def fixtureReadyTrip : Trip :=
  { id := 1, fleetOwnerId := 200, routeId := 10, vehicleId := none,
    driverId := some 3, status := TripStatus.IN_PROGRESS, createdAt := 0,
    startedAt := some 1, completedAt := none }

def fixtureReadyDb : DB :=
  { DB.empty with
    routes := [fixtureRoute],
    parcels := [fixtureParcel],
    trips := [fixtureReadyTrip],
    stops := [fixturePickupDone, fixtureDeliveryDone],
    rules := [fixtureRule],
    nextId := 100 }

/-- Witness for C8: completing the ready fixture trip fails inside billing
and commits nothing. -/
theorem C8_witness :
    complete_trip havConst10 fixtureReadyDb 3 1 9 =
      Except.error (ApiError.internalError
        ("Internal error during billing calculation")) ∧
    step havConst10 fixtureReadyDb (Op.completeTrip 3 1 9) =
      fixtureReadyDb := by
  have h := C8_settlement_failure_rolls_back havConst10 fixtureReadyDb 3 1 9
    fixtureReadyTrip (by decide) (by decide) (by decide) (by decide)
    (by intro v hv; simp [fixtureReadyTrip] at hv)
  exact ⟨h.1, h.2.1⟩

/-! ## Claim C10: the connectivity veto is dead code in reachable states -/

/-- C10: in every reachable state no trip has a driver assigned while
PLANNED (creation inserts driver null with PLANNED, assignment sets driver
and PENDING together, unassignment clears both together), so the
connectivity check run by AssignDriver finds no held PLANNED trips for any
driver and always admits: the veto never rejects an assignment. -/
theorem C10_connectivity_veto_unreachable :
    ∀ (hav : Rat → Rat → Rat → Rat → Rat) (db0 db : DB), Inv db0 →
      Reachable hav db0 db →
      (∀ t ∈ db.trips, t.driverId ≠ none → t.status ≠ TripStatus.PLANNED) ∧
      (∀ (d : Nat) (nt : Trip), can_assign_driver_to_trip hav db d nt =
        Except.ok (true, "No conflicts")) := by
  intro hav db0 db h0 hr
  have hinv := (inv_reachable h0 hr).2.2.2
  refine ⟨hinv, ?_⟩
  intro d nt
  have hempty : heldPlannedTrips db d = [] := by
    unfold heldPlannedTrips
    rw [List.filter_eq_nil_iff]
    intro t ht hpt
    simp only [Bool.and_eq_true, decide_eq_true_eq] at hpt
    exact absurd hpt.2 (hinv t ht (by rw [hpt.1]; exact Option.noConfusion))
  unfold can_assign_driver_to_trip
  rw [hempty]
  rfl

/-- Witness for C10 at the empty state: no trip violates the invariant and
the connectivity check admits driver 7 for the fixture candidate trip. -/
theorem C10_witness :
    can_assign_driver_to_trip havConst80 DB.empty 7 fixtureTripB =
      Except.ok (true, "No conflicts") :=
  (C10_connectivity_veto_unreachable havConst80 DB.empty DB.empty Inv_empty
    Reachable.refl).2 7 fixtureTripB

end Logistics
